import Mathlib

/-!
Verification of the gamification core of `bot.py` (carlostoek/GamGrol).

The shallow embedding below translates the data model (`User`, `Mission`,
`Reward` SQLAlchemy rows) and the state-mutating handlers of `bot.py` into
pure Lean functions.  Python integers are modelled as `Int` (points, cost,
stock) or `Nat` (identifiers, level); the JSON lists `achievements` and
`completed_missions` as Lean lists; a row that may be absent as `Option`.
Each handler is translated in the order the Python statements execute.
-/

namespace GamGrol

/-- A completion token stored in `User.completed_missions`: either the
string sentinel `"test_mission"` (from `handle_test_points`) or an integer
mission id (from `handle_post_reaction` / `handle_poll_answer`). -/
inductive Token where
  | testMission : Token
  | missionId : Nat → Token
deriving DecidableEq, Repr

/-- Row of table `users` (bot.py lines 32-40). -/
structure User where
  telegram_id : Nat
  username : Option String
  points : Int
  level : Nat
  achievements : List String
  completed_missions : List Token
deriving DecidableEq, Repr

/-- Row of table `missions` (bot.py lines 42-51). -/
structure Mission where
  id : Nat
  title : String
  description : String
  points : Int
  type : String
  active : Int
  post_id : Option Nat
  poll_id : Option String
deriving DecidableEq, Repr

/-- Row of table `rewards` (bot.py lines 53-59). -/
structure Reward where
  id : Nat
  name : String
  description : String
  cost : Int
  stock : Int
deriving DecidableEq, Repr

/-- `award_points` (bot.py lines 96-98): `user.points += points`.
No validation of the sign of `points` is performed. -/
def award_points (user : User) (points : Int) : User :=
  { user with points := user.points + points }

/-- `award_achievement` (bot.py lines 110-115): append the name if absent
and return `True`, otherwise return `False` without mutation. -/
def award_achievement (user : User) (achievement : String) : User × Bool :=
  if achievement ∉ user.achievements then
    ({ user with achievements := user.achievements ++ [achievement] }, true)
  else
    (user, false)

/-- The `level_thresholds` dict of `check_level_up` (bot.py line 101), in
Python 3.7+ insertion order. -/
def level_thresholds : List (Nat × Int) := [(2, 10), (3, 25), (4, 50), (5, 100)]

/-- The `for level, points_needed in level_thresholds.items()` loop of
`check_level_up` (bot.py lines 102-108).  On the first entry whose
threshold is met while the user is below that level, the level is set,
the level achievement is granted and the loop RETURNS `True`; after the
loop, `False`. -/
def check_level_up_go : User → List (Nat × Int) → User × Bool
  | user, [] => (user, false)
  | user, (level, points_needed) :: rest =>
    if user.points ≥ points_needed ∧ user.level < level then
      ((award_achievement { user with level := level }
          ("Nivel " ++ toString level ++ " Alcanzado")).1, true)
    else
      check_level_up_go user rest

/-- `check_level_up` (bot.py lines 100-108). -/
def check_level_up (user : User) : User × Bool :=
  check_level_up_go user level_thresholds

/-- Outcome reported to the user by an award handler. -/
inductive AwardOutcome where
  | awarded : Bool → AwardOutcome
  | alreadyCompleted : AwardOutcome
deriving DecidableEq, Repr

/-- Core of `handle_test_points` (bot.py lines 243-254), for a registered
user: if `"test_mission"` is not in `completed_missions`, add 5 points,
record the token, then run `check_level_up`; otherwise report the mission
as already tried. -/
def handle_test_points (user : User) : User × AwardOutcome :=
  if Token.testMission ∉ user.completed_missions then
    let r := check_level_up { user with
      points := user.points + 5,
      completed_missions := user.completed_missions ++ [Token.testMission] }
    (r.1, AwardOutcome.awarded r.2)
  else
    (user, AwardOutcome.alreadyCompleted)

/-- Core of `handle_post_reaction` (bot.py lines 484-501), for a found
mission and registered user: if the mission id is not in
`completed_missions`, add `mission.points`, record the id, grant the
achievement "Primera Reacción", then run `check_level_up`. -/
def handle_post_reaction (mission : Mission) (user : User) : User × AwardOutcome :=
  if Token.missionId mission.id ∉ user.completed_missions then
    let r := check_level_up (award_achievement { user with
      points := user.points + mission.points,
      completed_missions := user.completed_missions ++ [Token.missionId mission.id] }
      "Primera Reacción").1
    (r.1, AwardOutcome.awarded r.2)
  else
    (user, AwardOutcome.alreadyCompleted)

/-- Core of `handle_poll_answer` (bot.py lines 552-570), for a found
mission and registered user: same shape as `handle_post_reaction` with the
achievement "Primera Encuesta". -/
def handle_poll_answer (mission : Mission) (user : User) : User × AwardOutcome :=
  if Token.missionId mission.id ∉ user.completed_missions then
    let r := check_level_up (award_achievement { user with
      points := user.points + mission.points,
      completed_missions := user.completed_missions ++ [Token.missionId mission.id] }
      "Primera Encuesta").1
    (r.1, AwardOutcome.awarded r.2)
  else
    (user, AwardOutcome.alreadyCompleted)

/-- Outcome of a redemption attempt in `handle_confirm_reward`. -/
inductive RedeemOutcome where
  | redeemed : RedeemOutcome
  | insufficientPoints : RedeemOutcome
  | notAvailable : RedeemOutcome
deriving DecidableEq, Repr

/-- Core of `handle_confirm_reward` (bot.py lines 345-354) once reward and
user rows are at hand: outer guard `reward.stock > 0` (its failure, like a
missing row, answers "Recompensa no disponible"), inner guard
`user.points >= reward.cost`; on success debit the cost and decrement the
stock. -/
def confirm_reward_core (reward : Reward) (user : User) :
    Reward × User × RedeemOutcome :=
  if reward.stock > 0 then
    if user.points ≥ reward.cost then
      ({ reward with stock := reward.stock - 1 },
       { user with points := user.points - reward.cost },
       RedeemOutcome.redeemed)
    else
      (reward, user, RedeemOutcome.insufficientPoints)
  else
    (reward, user, RedeemOutcome.notAvailable)

/-- `handle_confirm_reward` (bot.py lines 340-354) including the row
lookups: `if reward and user and reward.stock > 0` — an absent reward or
user falls to the "Recompensa no disponible" branch with no mutation. -/
def handle_confirm_reward (reward? : Option Reward) (user? : Option User) :
    Option Reward × Option User × RedeemOutcome :=
  match reward?, user? with
  | some reward, some user =>
    let r := confirm_reward_core reward user
    (some r.1, some r.2.1, r.2.2)
  | r?, u? => (r?, u?, RedeemOutcome.notAvailable)

/-- The per-user effect of `reset_season`'s SQL UPDATE (bot.py line 426):
`points = 0, level = 1, achievements = '[]', completed_missions = '[]'`. -/
def reset_user (user : User) : User :=
  { user with points := 0, level := 1, achievements := [], completed_missions := [] }

/-- The row `cmd_start` inserts for a new user (bot.py line 140), with the
column defaults of the `User` model. -/
def fresh_user (tid : Nat) (uname : Option String) : User :=
  { telegram_id := tid, username := uname, points := 0, level := 1,
    achievements := [], completed_missions := [] }

/-- The mission `cmd_publish` creates (bot.py lines 457-471): 5 points,
type "post", active, with the channel message id filled in afterwards. -/
def new_post_mission (mid : Nat) (text : String) (postId : Nat) : Mission :=
  { id := mid, title := "Reacción a publicación " ++ text.take 20 ++ "...",
    description := text, points := 5, type := "post", active := 1,
    post_id := some postId, poll_id := none }

/-- The mission `cmd_poll` creates (bot.py lines 526-542): 10 points,
type "poll", active, with the poll id filled in afterwards. -/
def new_poll_mission (mid : Nat) (question : String) (pid : String) : Mission :=
  { id := mid, title := "Encuesta: " ++ question.take 20 ++ "...",
    description := question, points := 10, type := "poll", active := 1,
    post_id := none, poll_id := some pid }

/-- The rewards seeded by `init_db` (bot.py lines 65-76), with the
auto-increment primary keys 1..10. -/
def initial_rewards : List Reward := [
  { id := 1, name := "Besito Digital",
    description := "Un saludo personalizado, coqueto y tierno, exclusivo para ti.",
    cost := 20, stock := 5 },
  { id := 2, name := "Espía del Diván",
    description := "Accede de forma anticipada a una publicación futura antes que nadie.",
    cost := 30, stock := 5 },
  { id := 3, name := "Toque Kinky",
    description := "Un descuento sorpresa para usar en contenido exclusivo o sesiones.",
    cost := 40, stock := 5 },
  { id := 4, name := "Spoiler Indiscreto",
    description := "Obtén una pista visual o textual de un futuro set antes del lanzamiento.",
    cost := 50, stock := 5 },
  { id := 5, name := "Entrada Furtiva al Diván",
    description := "Acceso por 24 horas al canal VIP para quienes no están suscritos actualmente (o para regalar).",
    cost := 60, stock := 5 },
  { id := 6, name := "Confesión Prohibida",
    description := "Diana responderá en privado una pregunta que elijas… sin filtros.",
    cost := 70, stock := 5 },
  { id := 7, name := "La Llave del Cajón Secreto",
    description := "Acceso a una pieza de contenido \x27perdido\x27 que no está publicado en el canal.",
    cost := 80, stock := 5 },
  { id := 8, name := "Ritual de Medianoche",
    description := "Un contenido especial que solo se entrega entre las 12:00 y la 1:00 AM. Misterioso y provocador.",
    cost := 90, stock := 5 },
  { id := 9, name := "Premonición Sensual",
    description := "Recibe una visión anticipada de una sesión o colaboración futura, en forma de teaser o audio.",
    cost := 100, stock := 5 },
  { id := 10, name := "Capricho Premium",
    description := "Canjeable por un video Premium completo a elección del catálogo (con restricciones de disponibilidad).",
    cost := 150, stock := 5 }]

/-- The whole persisted state: the three tables. -/
structure BotState where
  users : List User
  missions : List Mission
  rewards : List Reward
deriving DecidableEq, Repr

/-- `select(User).filter_by(telegram_id=tid)` followed by `.first()`. -/
def find_user (users : List User) (tid : Nat) : Option User :=
  users.find? (fun u => u.telegram_id == tid)

/-- Committing a mutated `User` row back: the row with this telegram id is
replaced (telegram_id is declared unique). -/
def update_user (users : List User) (tid : Nat) (u : User) : List User :=
  users.map (fun v => if v.telegram_id == tid then u else v)

/-- `session.get(Mission, mission_id)`: primary-key lookup, with no filter
on the `active` flag. -/
def find_mission (missions : List Mission) (mid : Nat) : Option Mission :=
  missions.find? (fun m => m.id == mid)

/-- `select(Mission).filter_by(poll_id=pid)` followed by `.first()`, with
no filter on the `active` flag. -/
def find_mission_by_poll (missions : List Mission) (pid : String) : Option Mission :=
  missions.find? (fun m => m.poll_id == some pid)

/-- `session.get(Reward, reward_id)`. -/
def find_reward (rewards : List Reward) (rid : Nat) : Option Reward :=
  rewards.find? (fun r => r.id == rid)

/-- Committing a mutated `Reward` row back. -/
def update_reward (rewards : List Reward) (rid : Nat) (r : Reward) : List Reward :=
  rewards.map (fun v => if v.id == rid then r else v)

/-- Fresh auto-increment primary key for a new mission row. -/
def fresh_mission_id (missions : List Mission) : Nat := missions.length + 1

/-- The state-mutating operations of the program, as dispatched by the
handlers of `bot.py`. -/
inductive Op where
  | start : Nat → Option String → Op
  | testPoints : Nat → Op
  | publish : String → Nat → Op
  | poll : String → String → Op
  | postReaction : Nat → Nat → Op
  | pollAnswer : Nat → String → Op
  | confirmReward : Nat → Nat → Op
  | grant : Nat → String → Op
  | reset : Op
deriving DecidableEq, Repr

/-- One inbound event processed to completion, per the handler bodies of
`bot.py`; a lookup that comes back empty leaves the state unchanged (the
handler only sends an informational message). -/
def step (s : BotState) : Op → BotState
  | Op.start tid uname =>
    match find_user s.users tid with
    | some _ => s
    | none => { s with users := s.users ++ [fresh_user tid uname] }
  | Op.testPoints tid =>
    match find_user s.users tid with
    | some u => { s with users := update_user s.users tid (handle_test_points u).1 }
    | none => s
  | Op.publish text postId =>
    { s with missions :=
        s.missions ++ [new_post_mission (fresh_mission_id s.missions) text postId] }
  | Op.poll question pid =>
    { s with missions :=
        s.missions ++ [new_poll_mission (fresh_mission_id s.missions) question pid] }
  | Op.postReaction tid mid =>
    match find_mission s.missions mid, find_user s.users tid with
    | some m, some u =>
      { s with users := update_user s.users tid (handle_post_reaction m u).1 }
    | _, _ => s
  | Op.pollAnswer tid pid =>
    match find_mission_by_poll s.missions pid, find_user s.users tid with
    | some m, some u =>
      { s with users := update_user s.users tid (handle_poll_answer m u).1 }
    | _, _ => s
  | Op.confirmReward tid rid =>
    match find_reward s.rewards rid, find_user s.users tid with
    | some r, some u =>
      let res := confirm_reward_core r u
      { s with rewards := update_reward s.rewards rid res.1,
               users := update_user s.users tid res.2.1 }
    | _, _ => s
  | Op.grant tid a =>
    match find_user s.users tid with
    | some u => { s with users := update_user s.users tid (award_achievement u a).1 }
    | none => s
  | Op.reset => { s with users := s.users.map reset_user }

/-- A whole run of the program from a starting state. -/
def run_ops (s : BotState) (ops : List Op) : BotState := ops.foldl step s

/-- The database right after `init_db` plus a first `/start` of one user:
one fresh user, no missions, the seeded rewards. -/
def initial_state (tid : Nat) (uname : Option String) : BotState :=
  { users := [fresh_user tid uname], missions := [], rewards := initial_rewards }

/-- The operations of `bot.py` that touch one user's row directly, used to
trace a single user through awards and redemptions. -/
inductive UserOp where
  | test : UserOp
  | react : Mission → UserOp
  | answer : Mission → UserOp
  | redeem : Reward → UserOp
  | grantAch : String → UserOp
deriving DecidableEq, Repr

/-- Effect of one operation on the traced user's row. -/
def apply_user_op (user : User) : UserOp → User
  | UserOp.test => (handle_test_points user).1
  | UserOp.react m => (handle_post_reaction m user).1
  | UserOp.answer m => (handle_poll_answer m user).1
  | UserOp.redeem r => (confirm_reward_core r user).2.1
  | UserOp.grantAch a => (award_achievement user a).1

/-- A sequence of awards, redemptions and grants applied to one user. -/
def run_user_ops (user : User) (ops : List UserOp) : User :=
  ops.foldl apply_user_op user

/-- The non-negativity invariant of the whole state, plus the auxiliary
fact that every stored mission carries a non-negative reward (missions are
only ever created with 5 or 10 points). -/
def StateInv (s : BotState) : Prop :=
  (∀ u ∈ s.users, 0 ≤ u.points) ∧
  (∀ r ∈ s.rewards, 0 ≤ r.stock) ∧
  (∀ m ∈ s.missions, 0 ≤ m.points)

/-- A mission row worth 150 points (the `Mission.points` column admits any
integer; the admin commands happen to create rows worth 5 or 10). -/
def big_mission : Mission :=
  { id := 1, title := "m", description := "m", points := 150, type := "post",
    active := 1, post_id := none, poll_id := none }

/-- A reward row costing 150 points with one unit of stock. -/
def big_reward : Reward :=
  { id := 1, name := "big", description := "big", cost := 150, stock := 1 }

/-! ## Field-frame lemmas for the leveling engine -/

theorem award_achievement_fields (u : User) (a : String) :
    (award_achievement u a).1.telegram_id = u.telegram_id ∧
    (award_achievement u a).1.username = u.username ∧
    (award_achievement u a).1.points = u.points ∧
    (award_achievement u a).1.level = u.level ∧
    (award_achievement u a).1.completed_missions = u.completed_missions := by
  unfold award_achievement
  split <;> simp

theorem check_level_up_go_fields (u : User) (ts : List (Nat × Int)) :
    (check_level_up_go u ts).1.telegram_id = u.telegram_id ∧
    (check_level_up_go u ts).1.username = u.username ∧
    (check_level_up_go u ts).1.points = u.points ∧
    (check_level_up_go u ts).1.completed_missions = u.completed_missions ∧
    u.level ≤ (check_level_up_go u ts).1.level := by
  induction ts with
  | nil => simp [check_level_up_go]
  | cons p rest ih =>
    obtain ⟨l, n⟩ := p
    simp only [check_level_up_go]
    split
    next h =>
      obtain ⟨h1, h2, h3, h4, h5⟩ :=
        award_achievement_fields { u with level := l }
          ("Nivel " ++ toString l ++ " Alcanzado")
      exact ⟨h1, h2, h3, h5, by rw [h4]; exact Nat.le_of_lt h.2⟩
    next => exact ih

theorem check_level_up_fields (u : User) :
    (check_level_up u).1.telegram_id = u.telegram_id ∧
    (check_level_up u).1.username = u.username ∧
    (check_level_up u).1.points = u.points ∧
    (check_level_up u).1.completed_missions = u.completed_missions ∧
    u.level ≤ (check_level_up u).1.level :=
  check_level_up_go_fields u level_thresholds

/-! ## Handler characterizations -/

theorem handle_test_points_completed (u : User)
    (h : Token.testMission ∈ u.completed_missions) :
    handle_test_points u = (u, AwardOutcome.alreadyCompleted) := by
  unfold handle_test_points
  rw [if_neg (not_not_intro h)]

theorem handle_test_points_new (u : User)
    (h : Token.testMission ∉ u.completed_missions) :
    (handle_test_points u).1.points = u.points + 5 ∧
    (handle_test_points u).1.completed_missions
      = u.completed_missions ++ [Token.testMission] ∧
    u.level ≤ (handle_test_points u).1.level ∧
    (handle_test_points u).1.telegram_id = u.telegram_id ∧
    (handle_test_points u).1.username = u.username := by
  unfold handle_test_points
  rw [if_pos h]
  obtain ⟨h1, h2, h3, h4, h5⟩ := check_level_up_fields { u with
    points := u.points + 5,
    completed_missions := u.completed_missions ++ [Token.testMission] }
  exact ⟨h3, h4, h5, h1, h2⟩

theorem handle_post_reaction_completed (m : Mission) (u : User)
    (h : Token.missionId m.id ∈ u.completed_missions) :
    handle_post_reaction m u = (u, AwardOutcome.alreadyCompleted) := by
  unfold handle_post_reaction
  rw [if_neg (not_not_intro h)]

theorem handle_post_reaction_new (m : Mission) (u : User)
    (h : Token.missionId m.id ∉ u.completed_missions) :
    (handle_post_reaction m u).1.points = u.points + m.points ∧
    (handle_post_reaction m u).1.completed_missions
      = u.completed_missions ++ [Token.missionId m.id] ∧
    u.level ≤ (handle_post_reaction m u).1.level ∧
    (handle_post_reaction m u).1.telegram_id = u.telegram_id ∧
    (handle_post_reaction m u).1.username = u.username := by
  unfold handle_post_reaction
  rw [if_pos h]
  obtain ⟨a1, a2, a3, a4, a5⟩ := award_achievement_fields { u with
    points := u.points + m.points,
    completed_missions := u.completed_missions ++ [Token.missionId m.id] }
    "Primera Reacción"
  obtain ⟨h1, h2, h3, h4, h5⟩ := check_level_up_fields (award_achievement { u with
    points := u.points + m.points,
    completed_missions := u.completed_missions ++ [Token.missionId m.id] }
    "Primera Reacción").1
  refine ⟨?_, ?_, ?_, ?_, ?_⟩
  · rw [h3, a3]
  · rw [h4, a5]
  · rw [a4] at h5; exact h5
  · rw [h1, a1]
  · rw [h2, a2]

theorem handle_poll_answer_completed (m : Mission) (u : User)
    (h : Token.missionId m.id ∈ u.completed_missions) :
    handle_poll_answer m u = (u, AwardOutcome.alreadyCompleted) := by
  unfold handle_poll_answer
  rw [if_neg (not_not_intro h)]

theorem handle_poll_answer_new (m : Mission) (u : User)
    (h : Token.missionId m.id ∉ u.completed_missions) :
    (handle_poll_answer m u).1.points = u.points + m.points ∧
    (handle_poll_answer m u).1.completed_missions
      = u.completed_missions ++ [Token.missionId m.id] ∧
    u.level ≤ (handle_poll_answer m u).1.level ∧
    (handle_poll_answer m u).1.telegram_id = u.telegram_id ∧
    (handle_poll_answer m u).1.username = u.username := by
  unfold handle_poll_answer
  rw [if_pos h]
  obtain ⟨a1, a2, a3, a4, a5⟩ := award_achievement_fields { u with
    points := u.points + m.points,
    completed_missions := u.completed_missions ++ [Token.missionId m.id] }
    "Primera Encuesta"
  obtain ⟨h1, h2, h3, h4, h5⟩ := check_level_up_fields (award_achievement { u with
    points := u.points + m.points,
    completed_missions := u.completed_missions ++ [Token.missionId m.id] }
    "Primera Encuesta").1
  refine ⟨?_, ?_, ?_, ?_, ?_⟩
  · rw [h3, a3]
  · rw [h4, a5]
  · rw [a4] at h5; exact h5
  · rw [h1, a1]
  · rw [h2, a2]

theorem confirm_reward_core_user_fields (r : Reward) (u : User) :
    (confirm_reward_core r u).2.1.telegram_id = u.telegram_id ∧
    (confirm_reward_core r u).2.1.username = u.username ∧
    (confirm_reward_core r u).2.1.level = u.level ∧
    (confirm_reward_core r u).2.1.achievements = u.achievements ∧
    (confirm_reward_core r u).2.1.completed_missions = u.completed_missions := by
  unfold confirm_reward_core
  split
  · split <;> simp
  · simp

theorem confirm_reward_core_points_nonneg (r : Reward) (u : User)
    (h : 0 ≤ u.points) : 0 ≤ (confirm_reward_core r u).2.1.points := by
  unfold confirm_reward_core
  split
  · split
    next hp => simpa using hp
    next => simpa using h
  · simpa using h

theorem confirm_reward_core_stock_nonneg (r : Reward) (u : User)
    (h : 0 ≤ r.stock) : 0 ≤ (confirm_reward_core r u).1.stock := by
  unfold confirm_reward_core
  split
  next hs =>
    split
    · simpa using hs
    · simpa using h
  next => simpa using h

theorem handle_test_points_points_mono (u : User) :
    u.points ≤ (handle_test_points u).1.points := by
  by_cases h : Token.testMission ∈ u.completed_missions
  · rw [handle_test_points_completed u h]
  · rw [(handle_test_points_new u h).1]; omega

theorem handle_post_reaction_points_mono (m : Mission) (u : User)
    (hm : 0 ≤ m.points) : u.points ≤ (handle_post_reaction m u).1.points := by
  by_cases h : Token.missionId m.id ∈ u.completed_missions
  · rw [handle_post_reaction_completed m u h]
  · rw [(handle_post_reaction_new m u h).1]; omega

theorem handle_poll_answer_points_mono (m : Mission) (u : User)
    (hm : 0 ≤ m.points) : u.points ≤ (handle_poll_answer m u).1.points := by
  by_cases h : Token.missionId m.id ∈ u.completed_missions
  · rw [handle_poll_answer_completed m u h]
  · rw [(handle_poll_answer_new m u h).1]; omega

theorem handle_test_points_level_mono (u : User) :
    u.level ≤ (handle_test_points u).1.level := by
  by_cases h : Token.testMission ∈ u.completed_missions
  · rw [handle_test_points_completed u h]
  · exact (handle_test_points_new u h).2.2.1

theorem handle_post_reaction_level_mono (m : Mission) (u : User) :
    u.level ≤ (handle_post_reaction m u).1.level := by
  by_cases h : Token.missionId m.id ∈ u.completed_missions
  · rw [handle_post_reaction_completed m u h]
  · exact (handle_post_reaction_new m u h).2.2.1

theorem handle_poll_answer_level_mono (m : Mission) (u : User) :
    u.level ≤ (handle_poll_answer m u).1.level := by
  by_cases h : Token.missionId m.id ∈ u.completed_missions
  · rw [handle_poll_answer_completed m u h]
  · exact (handle_poll_answer_new m u h).2.2.1

/-! ## List-level lemmas for the global state -/

theorem update_user_forall (P : User → Prop) (us : List User) (tid : Nat)
    (u : User) (h : ∀ v ∈ us, P v) (h' : P u) :
    ∀ v ∈ update_user us tid u, P v := by
  intro v hv
  rcases List.mem_map.1 hv with ⟨w, hw, rfl⟩
  by_cases hc : w.telegram_id == tid
  · simpa [hc] using h'
  · simpa [hc] using h w hw

theorem update_reward_forall (P : Reward → Prop) (rs : List Reward) (rid : Nat)
    (r : Reward) (h : ∀ v ∈ rs, P v) (h' : P r) :
    ∀ v ∈ update_reward rs rid r, P v := by
  intro v hv
  rcases List.mem_map.1 hv with ⟨w, hw, rfl⟩
  by_cases hc : w.id == rid
  · simpa [hc] using h'
  · simpa [hc] using h w hw

theorem find_user_mem (us : List User) (tid : Nat) (u : User)
    (h : find_user us tid = some u) : u ∈ us :=
  List.mem_of_find?_eq_some h

theorem find_mission_mem (ms : List Mission) (mid : Nat) (m : Mission)
    (h : find_mission ms mid = some m) : m ∈ ms :=
  List.mem_of_find?_eq_some h

theorem find_mission_by_poll_mem (ms : List Mission) (pid : String) (m : Mission)
    (h : find_mission_by_poll ms pid = some m) : m ∈ ms :=
  List.mem_of_find?_eq_some h

theorem find_reward_mem (rs : List Reward) (rid : Nat) (r : Reward)
    (h : find_reward rs rid = some r) : r ∈ rs :=
  List.mem_of_find?_eq_some h

theorem step_preserves_inv (s : BotState) (op : Op) (h : StateInv s) :
    StateInv (step s op) := by
  obtain ⟨hu, hr, hm⟩ := h
  cases op with
  | start tid uname =>
    simp only [step]
    cases hf : find_user s.users tid with
    | some u => exact ⟨hu, hr, hm⟩
    | none =>
      refine ⟨?_, hr, hm⟩
      intro v hv
      rcases List.mem_append.1 hv with h1 | h2
      · exact hu v h1
      · rw [List.mem_singleton.1 h2]; simp [fresh_user]
  | testPoints tid =>
    simp only [step]
    cases hf : find_user s.users tid with
    | some u =>
      refine ⟨?_, hr, hm⟩
      exact update_user_forall _ _ _ _ hu
        (le_trans (hu u (find_user_mem _ _ _ hf)) (handle_test_points_points_mono u))
    | none => exact ⟨hu, hr, hm⟩
  | publish text postId =>
    refine ⟨hu, hr, ?_⟩
    intro m hmem
    rcases List.mem_append.1 hmem with h1 | h2
    · exact hm m h1
    · rw [List.mem_singleton.1 h2]; simp [new_post_mission]
  | poll question pid =>
    refine ⟨hu, hr, ?_⟩
    intro m hmem
    rcases List.mem_append.1 hmem with h1 | h2
    · exact hm m h1
    · rw [List.mem_singleton.1 h2]; simp [new_poll_mission]
  | postReaction tid mid =>
    simp only [step]
    cases hfm : find_mission s.missions mid with
    | some m =>
      cases hf : find_user s.users tid with
      | some u =>
        refine ⟨?_, hr, hm⟩
        exact update_user_forall _ _ _ _ hu
          (le_trans (hu u (find_user_mem _ _ _ hf))
            (handle_post_reaction_points_mono m u (hm m (find_mission_mem _ _ _ hfm))))
      | none => exact ⟨hu, hr, hm⟩
    | none => exact ⟨hu, hr, hm⟩
  | pollAnswer tid pid =>
    simp only [step]
    cases hfm : find_mission_by_poll s.missions pid with
    | some m =>
      cases hf : find_user s.users tid with
      | some u =>
        refine ⟨?_, hr, hm⟩
        exact update_user_forall _ _ _ _ hu
          (le_trans (hu u (find_user_mem _ _ _ hf))
            (handle_poll_answer_points_mono m u
              (hm m (find_mission_by_poll_mem _ _ _ hfm))))
      | none => exact ⟨hu, hr, hm⟩
    | none => exact ⟨hu, hr, hm⟩
  | confirmReward tid rid =>
    simp only [step]
    cases hfr : find_reward s.rewards rid with
    | some r =>
      cases hf : find_user s.users tid with
      | some u =>
        refine ⟨?_, ?_, hm⟩
        · exact update_user_forall _ _ _ _ hu
            (confirm_reward_core_points_nonneg r u (hu u (find_user_mem _ _ _ hf)))
        · exact update_reward_forall _ _ _ _ hr
            (confirm_reward_core_stock_nonneg r u (hr r (find_reward_mem _ _ _ hfr)))
      | none => exact ⟨hu, hr, hm⟩
    | none => exact ⟨hu, hr, hm⟩
  | grant tid a =>
    simp only [step]
    cases hf : find_user s.users tid with
    | some u =>
      refine ⟨?_, hr, hm⟩
      refine update_user_forall _ _ _ _ hu ?_
      rw [(award_achievement_fields u a).2.2.1]
      exact hu u (find_user_mem _ _ _ hf)
    | none => exact ⟨hu, hr, hm⟩
  | reset =>
    refine ⟨?_, hr, hm⟩
    intro v hv
    rcases List.mem_map.1 hv with ⟨w, hw, rfl⟩
    simp [reset_user]

theorem run_ops_preserves_inv (s : BotState) (ops : List Op) (h : StateInv s) :
    StateInv (run_ops s ops) := by
  induction ops generalizing s with
  | nil => exact h
  | cons op rest ih => exact ih (step s op) (step_preserves_inv s op h)

theorem award_achievement_absent (x : User) (a : String)
    (h : a ∉ x.achievements) :
    award_achievement x a = ({ x with achievements := x.achievements ++ [a] }, true) := by
  unfold award_achievement
  rw [if_pos h]

theorem award_achievement_already (x : User) (a : String)
    (h : a ∈ x.achievements) : award_achievement x a = (x, false) := by
  unfold award_achievement
  rw [if_neg (not_not_intro h)]

theorem apply_user_op_level_mono (u : User) (op : UserOp) :
    u.level ≤ (apply_user_op u op).level := by
  cases op with
  | test => exact handle_test_points_level_mono u
  | react m => exact handle_post_reaction_level_mono m u
  | answer m => exact handle_poll_answer_level_mono m u
  | redeem r => exact le_of_eq ((confirm_reward_core_user_fields r u).2.2.1).symm
  | grantAch a => exact le_of_eq ((award_achievement_fields u a).2.2.2.1).symm

theorem confirm_reward_core_spec (r : Reward) (u : User) :
    (r.stock > 0 → u.points ≥ r.cost →
      confirm_reward_core r u
        = ({ r with stock := r.stock - 1 },
           { u with points := u.points - r.cost }, RedeemOutcome.redeemed)) ∧
    (r.stock > 0 → u.points < r.cost →
      confirm_reward_core r u = (r, u, RedeemOutcome.insufficientPoints)) ∧
    (r.stock ≤ 0 → confirm_reward_core r u = (r, u, RedeemOutcome.notAvailable)) := by
  unfold confirm_reward_core
  refine ⟨?_, ?_, ?_⟩
  · intro hs hp; rw [if_pos hs, if_pos hp]
  · intro hs hp; rw [if_pos hs, if_neg (not_le.2 hp)]
  · intro hs; rw [if_neg (not_lt.2 hs)]

/-! ## Claim theorems -/

/-- C1 (refuted by the code): the claim says a single award that crosses
several thresholds (a fresh user given 150 points at once) raises the
level through every intermediate threshold up to level 5, granting the
achievement for each level crossed.  The `check_level_up` loop instead
returns right after the first threshold it applies: the user ends at
level 2 with only the achievement "Nivel 2 Alcanzado", although their 150
points meet every threshold of the table. -/
theorem check_level_up_stops_at_first_threshold :
    (check_level_up (award_points (fresh_user 1 none) 150)).1.points = 150 ∧
    (check_level_up (award_points (fresh_user 1 none) 150)).1.level = 2 ∧
    (check_level_up (award_points (fresh_user 1 none) 150)).1.achievements
      = ["Nivel 2 Alcanzado"] ∧
    (check_level_up (award_points (fresh_user 1 none) 150)).2 = true := by
  decide

/-- C2: for a user who has not yet completed a token, the first run of the
award sequence adds the token's reward to the points and records the
token, and the second run with the same token reports the mission as
already completed and returns the state entirely unchanged — for the
test-mission sentinel, for a post-reaction mission id, and for a
poll-answer mission id alike. -/
theorem award_sequence_idempotent (u : User) (m : Mission)
    (ht : Token.testMission ∉ u.completed_missions)
    (hm : Token.missionId m.id ∉ u.completed_missions) :
    ((handle_test_points u).1.points = u.points + 5 ∧
     Token.testMission ∈ (handle_test_points u).1.completed_missions ∧
     handle_test_points (handle_test_points u).1
       = ((handle_test_points u).1, AwardOutcome.alreadyCompleted)) ∧
    ((handle_post_reaction m u).1.points = u.points + m.points ∧
     Token.missionId m.id ∈ (handle_post_reaction m u).1.completed_missions ∧
     handle_post_reaction m (handle_post_reaction m u).1
       = ((handle_post_reaction m u).1, AwardOutcome.alreadyCompleted)) ∧
    ((handle_poll_answer m u).1.points = u.points + m.points ∧
     Token.missionId m.id ∈ (handle_poll_answer m u).1.completed_missions ∧
     handle_poll_answer m (handle_poll_answer m u).1
       = ((handle_poll_answer m u).1, AwardOutcome.alreadyCompleted)) := by
  have t := handle_test_points_new u ht
  have p := handle_post_reaction_new m u hm
  have q := handle_poll_answer_new m u hm
  have tmem : Token.testMission ∈ (handle_test_points u).1.completed_missions := by
    rw [t.2.1]; simp
  have pmem : Token.missionId m.id ∈ (handle_post_reaction m u).1.completed_missions := by
    rw [p.2.1]; simp
  have qmem : Token.missionId m.id ∈ (handle_poll_answer m u).1.completed_missions := by
    rw [q.2.1]; simp
  exact ⟨⟨t.1, tmem, handle_test_points_completed _ tmem⟩,
         ⟨p.1, pmem, handle_post_reaction_completed _ _ pmem⟩,
         ⟨q.1, qmem, handle_poll_answer_completed _ _ qmem⟩⟩

theorem award_sequence_idempotent_witness :
    (Token.testMission ∉ (fresh_user 1 none).completed_missions ∧
     Token.missionId (new_post_mission 1 "hola" 7).id
       ∉ (fresh_user 1 none).completed_missions) ∧
    (((handle_test_points (fresh_user 1 none)).1.points
        = (fresh_user 1 none).points + 5 ∧
      Token.testMission
        ∈ (handle_test_points (fresh_user 1 none)).1.completed_missions ∧
      handle_test_points (handle_test_points (fresh_user 1 none)).1
        = ((handle_test_points (fresh_user 1 none)).1,
           AwardOutcome.alreadyCompleted)) ∧
     ((handle_post_reaction (new_post_mission 1 "hola" 7) (fresh_user 1 none)).1.points
        = (fresh_user 1 none).points + (new_post_mission 1 "hola" 7).points ∧
      Token.missionId (new_post_mission 1 "hola" 7).id
        ∈ (handle_post_reaction (new_post_mission 1 "hola" 7)
            (fresh_user 1 none)).1.completed_missions ∧
      handle_post_reaction (new_post_mission 1 "hola" 7)
          (handle_post_reaction (new_post_mission 1 "hola" 7) (fresh_user 1 none)).1
        = ((handle_post_reaction (new_post_mission 1 "hola" 7)
             (fresh_user 1 none)).1, AwardOutcome.alreadyCompleted)) ∧
     ((handle_poll_answer (new_post_mission 1 "hola" 7) (fresh_user 1 none)).1.points
        = (fresh_user 1 none).points + (new_post_mission 1 "hola" 7).points ∧
      Token.missionId (new_post_mission 1 "hola" 7).id
        ∈ (handle_poll_answer (new_post_mission 1 "hola" 7)
            (fresh_user 1 none)).1.completed_missions ∧
      handle_poll_answer (new_post_mission 1 "hola" 7)
          (handle_poll_answer (new_post_mission 1 "hola" 7) (fresh_user 1 none)).1
        = ((handle_poll_answer (new_post_mission 1 "hola" 7)
             (fresh_user 1 none)).1, AwardOutcome.alreadyCompleted))) :=
  ⟨⟨by decide, by decide⟩,
   award_sequence_idempotent (fresh_user 1 none) (new_post_mission 1 "hola" 7)
     (by decide) (by decide)⟩

/-- C3: a redemption succeeds exactly when the reward row and the user row
exist, the stock is positive and the user can afford the cost; on success
the points drop by the cost and the stock by one; on every failure —
missing row, empty stock or insufficient points — neither row is
mutated. -/
theorem redemption_iff (r : Reward) (u : User) :
    (handle_confirm_reward none (some u)
       = (none, some u, RedeemOutcome.notAvailable)) ∧
    (handle_confirm_reward (some r) none
       = (some r, none, RedeemOutcome.notAvailable)) ∧
    (handle_confirm_reward none none
       = (none, none, RedeemOutcome.notAvailable)) ∧
    ((handle_confirm_reward (some r) (some u)).2.2 = RedeemOutcome.redeemed
       ↔ r.stock > 0 ∧ u.points ≥ r.cost) ∧
    (r.stock > 0 → u.points ≥ r.cost →
       handle_confirm_reward (some r) (some u)
         = (some { r with stock := r.stock - 1 },
            some { u with points := u.points - r.cost },
            RedeemOutcome.redeemed)) ∧
    ((handle_confirm_reward (some r) (some u)).2.2 ≠ RedeemOutcome.redeemed →
       handle_confirm_reward (some r) (some u)
         = (some r, some u, (handle_confirm_reward (some r) (some u)).2.2)) := by
  obtain ⟨c1, c2, c3⟩ := confirm_reward_core_spec r u
  refine ⟨rfl, rfl, rfl, ?_, ?_, ?_⟩
  · by_cases hs : r.stock > 0
    · by_cases hp : u.points ≥ r.cost
      · simp [handle_confirm_reward, c1 hs hp, hs, hp]
      · simp [handle_confirm_reward, c2 hs (not_le.1 hp), hp]
    · simp [handle_confirm_reward, c3 (not_lt.1 hs), hs]
  · intro hs hp
    simp [handle_confirm_reward, c1 hs hp]
  · intro hne
    by_cases hs : r.stock > 0
    · by_cases hp : u.points ≥ r.cost
      · exact absurd (by simp [handle_confirm_reward, c1 hs hp]) hne
      · simp [handle_confirm_reward, c2 hs (not_le.1 hp)]
    · simp [handle_confirm_reward, c3 (not_lt.1 hs)]

theorem redemption_iff_witness :
    ((0 : Int) < (big_reward.stock)) ∧
    ((big_reward.cost) ≤ (150 : Int)) ∧
    handle_confirm_reward (some big_reward)
        (some { fresh_user 1 none with points := 150 })
      = (some { big_reward with stock := big_reward.stock - 1 },
         some { fresh_user 1 none with points := 150 - big_reward.cost },
         RedeemOutcome.redeemed) :=
  ⟨by decide, by decide,
   (redemption_iff big_reward { fresh_user 1 none with points := 150 }).2.2.2.2.1
     (by decide) (by decide)⟩

/-- C4: starting from a fresh user with 0 points, no missions and the
seeded reward list, every sequence of the program's operations (user
registration, the three award handlers, direct achievement grants,
redemptions, mission publication and season reset) keeps every user's
points and every reward's stock non-negative. -/
theorem nonneg_invariants_preserved (tid : Nat) (uname : Option String)
    (ops : List Op) :
    (∀ u ∈ (run_ops (initial_state tid uname) ops).users, 0 ≤ u.points) ∧
    (∀ r ∈ (run_ops (initial_state tid uname) ops).rewards, 0 ≤ r.stock) := by
  have h0 : StateInv (initial_state tid uname) := by
    refine ⟨?_, ?_, ?_⟩
    · intro u hu
      rw [List.mem_singleton.1 hu]
      simp [fresh_user]
    · show ∀ r ∈ initial_rewards, 0 ≤ r.stock
      decide
    · show ∀ m ∈ ([] : List Mission), 0 ≤ m.points
      simp
  have h := run_ops_preserves_inv (initial_state tid uname) ops h0
  exact ⟨h.1, h.2.1⟩

theorem nonneg_invariants_preserved_witness :
    (∀ u ∈ (run_ops (initial_state 1 none)
        [Op.start 2 none, Op.testPoints 1, Op.publish "hola" 7,
         Op.postReaction 1 1, Op.confirmReward 1 1, Op.reset]).users,
       0 ≤ u.points) ∧
    (∀ r ∈ (run_ops (initial_state 1 none)
        [Op.start 2 none, Op.testPoints 1, Op.publish "hola" 7,
         Op.postReaction 1 1, Op.confirmReward 1 1, Op.reset]).rewards,
       0 ≤ r.stock) :=
  nonneg_invariants_preserved 1 none
    [Op.start 2 none, Op.testPoints 1, Op.publish "hola" 7,
     Op.postReaction 1 1, Op.confirmReward 1 1, Op.reset]

/-- C5 counterexample: a fresh user reacts to a 150-point mission (one
single award call) and then redeems a 150-point reward.  Their points
reached 150, past the 100-point threshold of level 5, yet the level after
the award — and after the redemption spends the points back to 0 — is 2,
not at least 5: reaching a threshold does not pin the level at or above
that threshold's level. -/
theorem level_not_sticky :
    (run_user_ops (fresh_user 1 none) [UserOp.react big_mission]).points = 150 ∧
    (run_user_ops (fresh_user 1 none) [UserOp.react big_mission]).level = 2 ∧
    (run_user_ops (fresh_user 1 none)
        [UserOp.react big_mission, UserOp.redeem big_reward]).points = 0 ∧
    (run_user_ops (fresh_user 1 none)
        [UserOp.react big_mission, UserOp.redeem big_reward]).level = 2 ∧
    ¬ 5 ≤ (run_user_ops (fresh_user 1 none)
        [UserOp.react big_mission, UserOp.redeem big_reward]).level := by
  decide

/-- C5 (amended): across every sequence of the program's per-user
operations — test-mission, post-reaction and poll-answer awards,
redemptions and achievement grants — the user's level never decreases. -/
theorem run_user_ops_level_mono (u : User) (ops : List UserOp) :
    u.level ≤ (run_user_ops u ops).level := by
  induction ops generalizing u with
  | nil => exact Nat.le_refl _
  | cons op rest ih =>
    exact le_trans (apply_user_op_level_mono u op) (ih (apply_user_op u op))

/-- C6: granting an achievement adds the name and reports `true` when it
is absent, reports `false` with no mutation when it is present, and hence
granting the same name twice leaves exactly one occurrence with the
second call reporting `false`. -/
theorem award_achievement_grant_once (u : User) (a : String) :
    (a ∉ u.achievements →
       award_achievement u a
         = ({ u with achievements := u.achievements ++ [a] }, true)) ∧
    (a ∈ u.achievements → award_achievement u a = (u, false)) ∧
    (award_achievement (award_achievement u a).1 a).2 = false ∧
    (award_achievement (award_achievement u a).1 a).1 = (award_achievement u a).1 ∧
    (a ∉ u.achievements →
       (award_achievement (award_achievement u a).1 a).1.achievements.count a = 1) := by
  have hmem : a ∈ (award_achievement u a).1.achievements := by
    by_cases h : a ∈ u.achievements
    · rw [award_achievement_already u a h]; exact h
    · rw [award_achievement_absent u a h]; simp
  have hsecond : award_achievement (award_achievement u a).1 a
      = ((award_achievement u a).1, false) :=
    award_achievement_already _ a hmem
  refine ⟨?_, ?_, ?_, ?_, ?_⟩
  · intro h; exact award_achievement_absent u a h
  · intro h; exact award_achievement_already u a h
  · rw [hsecond]
  · rw [hsecond]
  · intro h
    rw [hsecond]
    have hfirst : (award_achievement u a).1.achievements = u.achievements ++ [a] := by
      rw [award_achievement_absent u a h]
    rw [hfirst]
    simp [List.count_append, List.count_eq_zero.2 h]

theorem award_achievement_grant_once_witness :
    ("Logro" ∉ (fresh_user 1 none).achievements) ∧
    award_achievement (fresh_user 1 none) "Logro"
      = ({ fresh_user 1 none with
            achievements := (fresh_user 1 none).achievements ++ ["Logro"] }, true) ∧
    (award_achievement (award_achievement (fresh_user 1 none) "Logro").1 "Logro").2
      = false ∧
    (award_achievement (award_achievement (fresh_user 1 none) "Logro").1
        "Logro").1.achievements.count "Logro" = 1 :=
  ⟨by decide,
   (award_achievement_grant_once (fresh_user 1 none) "Logro").1 (by decide),
   (award_achievement_grant_once (fresh_user 1 none) "Logro").2.2.1,
   (award_achievement_grant_once (fresh_user 1 none) "Logro").2.2.2.2 (by decide)⟩

/-- C7 counterexample: the claim says a non-positive delta is rejected and
leaves the points unchanged, but `award_points` performs no validation: a
delta of -5 on a fresh user (0 points) is applied and changes the points
to -5. -/
theorem award_points_negative_delta_applied :
    (award_points (fresh_user 1 none) (-5)).points = -5 ∧
    ¬ (award_points (fresh_user 1 none) (-5)).points = (fresh_user 1 none).points := by
  decide

/-- C7 (amended): `award_points` adds the delta to the points
unconditionally — there is no sign check and no rejection path — so a
non-positive delta is applied like any other, and it leaves the points
unchanged only when it is zero. -/
theorem award_points_no_validation (u : User) (d : Int) (h : d ≤ 0) :
    (award_points u d).points = u.points + d ∧
    ((award_points u d).points = u.points ↔ d = 0) := by
  refine ⟨rfl, ?_⟩
  show u.points + d = u.points ↔ d = 0
  omega

theorem award_points_no_validation_witness :
    ((-5 : Int) ≤ 0) ∧
    ((award_points (fresh_user 1 none) (-5)).points
       = (fresh_user 1 none).points + (-5) ∧
     ((award_points (fresh_user 1 none) (-5)).points
        = (fresh_user 1 none).points ↔ (-5 : Int) = 0)) :=
  ⟨by decide, award_points_no_validation (fresh_user 1 none) (-5) (by decide)⟩

/-- C9: the post-reaction and poll-answer handlers never consult the
mission's `active` flag — the result is identical for any two values of
the flag — and an inactive mission (active = 0) still pays out its points
and is recorded in `completed_missions` exactly like an active one. -/
theorem active_flag_ignored (m : Mission) (u : User) (a b : Int) :
    handle_post_reaction { m with active := a } u
      = handle_post_reaction { m with active := b } u ∧
    handle_poll_answer { m with active := a } u
      = handle_poll_answer { m with active := b } u ∧
    (Token.missionId m.id ∉ u.completed_missions →
      (handle_post_reaction { m with active := 0 } u).1.points
        = u.points + m.points ∧
      Token.missionId m.id
        ∈ (handle_post_reaction { m with active := 0 } u).1.completed_missions ∧
      (handle_poll_answer { m with active := 0 } u).1.points
        = u.points + m.points ∧
      Token.missionId m.id
        ∈ (handle_poll_answer { m with active := 0 } u).1.completed_missions) := by
  refine ⟨rfl, rfl, ?_⟩
  intro h
  have hp := handle_post_reaction_new { m with active := 0 } u h
  have hq := handle_poll_answer_new { m with active := 0 } u h
  refine ⟨hp.1, ?_, hq.1, ?_⟩
  · rw [hp.2.1]; simp
  · rw [hq.2.1]; simp

theorem active_flag_ignored_witness :
    (Token.missionId (new_post_mission 1 "hola" 7).id
       ∉ (fresh_user 1 none).completed_missions) ∧
    (handle_post_reaction { new_post_mission 1 "hola" 7 with active := 0 }
        (fresh_user 1 none)
      = handle_post_reaction { new_post_mission 1 "hola" 7 with active := 1 }
          (fresh_user 1 none) ∧
     handle_poll_answer { new_post_mission 1 "hola" 7 with active := 0 }
        (fresh_user 1 none)
      = handle_poll_answer { new_post_mission 1 "hola" 7 with active := 1 }
          (fresh_user 1 none) ∧
     (Token.missionId (new_post_mission 1 "hola" 7).id
        ∉ (fresh_user 1 none).completed_missions →
       (handle_post_reaction { new_post_mission 1 "hola" 7 with active := 0 }
           (fresh_user 1 none)).1.points
         = (fresh_user 1 none).points + (new_post_mission 1 "hola" 7).points ∧
       Token.missionId (new_post_mission 1 "hola" 7).id
         ∈ (handle_post_reaction { new_post_mission 1 "hola" 7 with active := 0 }
             (fresh_user 1 none)).1.completed_missions ∧
       (handle_poll_answer { new_post_mission 1 "hola" 7 with active := 0 }
           (fresh_user 1 none)).1.points
         = (fresh_user 1 none).points + (new_post_mission 1 "hola" 7).points ∧
       Token.missionId (new_post_mission 1 "hola" 7).id
         ∈ (handle_poll_answer { new_post_mission 1 "hola" 7 with active := 0 }
             (fresh_user 1 none)).1.completed_missions)) :=
  ⟨by decide,
   active_flag_ignored (new_post_mission 1 "hola" 7) (fresh_user 1 none) 0 1⟩

/-- C10: a season reset rewrites only the four volatile user columns —
each user keeps their telegram id and username while points, level,
achievements and completed missions are reset — and the missions and
rewards tables (hence every reward's stock, cost, name and description)
are untouched. -/
theorem reset_season_frame (s : BotState) :
    (step s Op.reset).rewards = s.rewards ∧
    (step s Op.reset).missions = s.missions ∧
    (step s Op.reset).users = s.users.map reset_user ∧
    (∀ u : User, (reset_user u).telegram_id = u.telegram_id ∧
      (reset_user u).username = u.username ∧
      (reset_user u).points = 0 ∧ (reset_user u).level = 1 ∧
      (reset_user u).achievements = ([] : List String) ∧
      (reset_user u).completed_missions = ([] : List Token)) := by
  refine ⟨rfl, rfl, rfl, ?_⟩
  intro u
  simp [reset_user]

end GamGrol
